import Mathlib

/-!
Verification of the OctoPrint LayerCaptureDatacollect plugin core
(`octoprint_LayerCaptureDatacollect/LayerCaptureDatacollect.py` and the
trigger scheduling path of `octoprint_LayerCaptureDatacollect/__init__.py`).

The Python source is shallowly embedded: textual instruction lines are
lists of characters, the two `re.search` patterns used by the plugin are
embedded as deterministic scanning functions with the same first-match
semantics, machine floats carrying machine coordinates are modelled as
rationals, and the stateful handlers become explicit state-passing
functions that additionally return the trace of externally visible
actions they perform.
-/

namespace LayerCapture

/-- Whitespace class of the regex `\s` and of Python `str.strip`
(ASCII portion, which is all the instruction lines use). -/
def isWs (c : Char) : Bool :=
  c = ' ' || c = '\t' || c = '\n' || c = '\r' || c = '\x0b' || c = '\x0c'

/-- Digit class of the regex `\d` (ASCII portion). -/
def isDigitCh (c : Char) : Bool := '0' ≤ c && c ≤ '9'

/-- ASCII upper-casing of one character, as Python `str.upper` acts on the
instruction lines in question. -/
def upperCh (c : Char) : Char :=
  if 'a' ≤ c && c ≤ 'z' then Char.ofNat (c.toNat - 32) else c

/-- Python `str.strip`: drop leading and trailing whitespace. -/
def trimWs (l : List Char) : List Char :=
  ((l.dropWhile isWs).reverse.dropWhile isWs).reverse

/-- `cmd.strip().upper()` from `on_gcode_queuing` (LayerCaptureDatacollect.py:192). -/
def normalizeLine (l : List Char) : List Char := (trimWs l).map upperCh

/-- Python substring containment (`"M240" in line`). -/
def containsSub (needle : List Char) : List Char → Bool
  | [] => needle.isEmpty
  | c :: cs => needle.isPrefixOf (c :: cs) || containsSub needle cs

/-- The trigger marker token `M240` (LayerCaptureDatacollect.py:21,195). -/
def m240 : List Char := ['M', '2', '4', '0']

/-- Match of the regex fragment `[+-]?\d*\.?\d+` at the start of `cs` without
the optional sign, returning the matched text.  Python regex backtracking on
this fragment reduces to: take the maximal digit run; if a dot followed by at
least one digit comes next, include the dot and the maximal digit run after
it; otherwise the match is just the leading digit run (nonempty required). -/
def numAfterSign (cs : List Char) : Option (List Char) :=
  let d1 := cs.takeWhile isDigitCh
  match cs.dropWhile isDigitCh with
  | '.' :: r =>
      let d2 := r.takeWhile isDigitCh
      if d2 = [] then (if d1 = [] then none else some d1)
      else some (d1 ++ '.' :: d2)
  | _ => if d1 = [] then none else some d1

/-- Match of `[+-]?\d*\.?\d+` at the start of `cs`, returning the matched
text (the capture group of the trigger-parameter regexes). -/
def matchNum (cs : List Char) : Option (List Char) :=
  match cs with
  | '+' :: r => (numAfterSign r).map (fun n => '+' :: n)
  | '-' :: r => (numAfterSign r).map (fun n => '-' :: n)
  | _ => numAfterSign cs

/-- Attempt of the whole pattern `<tag>\s*([+-]?\d*\.?\d+)` at one fixed
start position, returning the capture group. -/
def matchTagNum (tag cs : List Char) : Option (List Char) :=
  if tag.isPrefixOf cs then matchNum ((cs.drop tag.length).dropWhile isWs)
  else none

/-- `re.search` semantics for `<tag>\s*([+-]?\d*\.?\d+)`: try the pattern at
each start position left to right and return the first capture group
(LayerCaptureDatacollect.py:200-201). -/
def searchTagNum (tag : List Char) : List Char → Option (List Char)
  | [] => none
  | c :: cs =>
    match matchTagNum tag (c :: cs) with
    | some r => some r
    | none => searchTagNum tag cs

/-- Parameter extraction of `on_gcode_queuing`
(LayerCaptureDatacollect.py:199-204): `layer_z` from `Z\s*([+-]?\d*\.?\d+)`
and `layer_num` from `ZN\s*([+-]?\d*\.?\d+)`; if either search fails the
`.group(1)` call raises and the bare `except` yields no parameters. -/
def parseM240Params (line : List Char) : Option (List Char × List Char) :=
  match searchTagNum ['Z'] line, searchTagNum ['Z', 'N'] line with
  | some z, some zn => some (z, zn)
  | _, _ => none

/-- Numeric value of a digit run (helper for the decimal reading below). -/
def natOfDigits (l : List Char) : ℕ :=
  l.foldl (fun a c => 10 * a + (c.toNat - 48)) 0

/-- Unsigned decimal reading `digits [ . digits ]` as a rational, the value
Python `float` assigns to the matched texts in question. -/
def ratOfUnsigned (cs : List Char) : ℚ :=
  let d1 := cs.takeWhile isDigitCh
  match cs.dropWhile isDigitCh with
  | '.' :: r =>
      let d2 := r.takeWhile isDigitCh
      (natOfDigits d1 : ℚ) + (natOfDigits d2 : ℚ) / (10 : ℚ) ^ d2.length
  | _ => (natOfDigits d1 : ℚ)

/-- Signed decimal reading as a rational (the `[+-]?\d*\.?\d+` shapes). -/
def ratOfNum (cs : List Char) : ℚ :=
  match cs with
  | '+' :: r => ratOfUnsigned r
  | '-' :: r => -(ratOfUnsigned r)
  | _ => ratOfUnsigned cs

/-- Literal matcher: consume `lit` at the start of `cs` or fail. -/
def litP (lit cs : List Char) : Option (List Char) :=
  if lit.isPrefixOf cs then some (cs.drop lit.length) else none

/-- Matcher for `\d+\.\d+` at the start of `cs`: maximal digit run, a dot,
maximal digit run (both runs nonempty); returns the matched text and the
remainder. -/
def decimalP (cs : List Char) : Option (List Char × List Char) :=
  let d1 := cs.takeWhile isDigitCh
  if d1 = [] then none
  else
    match cs.dropWhile isDigitCh with
    | '.' :: r =>
        let d2 := r.takeWhile isDigitCh
        if d2 = [] then none
        else some (d1 ++ '.' :: d2, r.dropWhile isDigitCh)
    | _ => none

/-- The position-report pattern of `gcode_received`
(LayerCaptureDatacollect.py:367):
`^ok X:(\d+\.\d+) Y:(\d+\.\d+) Z:(\d+\.\d+) E:(\d+\.\d+) Count: A:`,
anchored at the start of the line; returns the four captured texts.  All
four fields and the trailing `Count: A:` are required by the pattern. -/
def parsePositionLine (line : List Char) :
    Option (List Char × List Char × List Char × List Char) := do
  let r1 ← litP "ok X:".toList line
  let (gx, r2) ← decimalP r1
  let r3 ← litP " Y:".toList r2
  let (gy, r4) ← decimalP r3
  let r5 ← litP " Z:".toList r4
  let (gz, r6) ← decimalP r5
  let r7 ← litP " E:".toList r6
  let (ge, r8) ← decimalP r7
  let _ ← litP " Count: A:".toList r8
  pure (gx, gy, gz, ge)

/-- A parsed position report: the four float fields the plugin stores in its
`position` dict, as rationals. -/
structure PosQ where
  x : ℚ
  y : ℚ
  z : ℚ
  e : ℚ
deriving DecidableEq

/-- The position-correlation state of the plugin object: the
`_waiting_for_position` flag, the `_position_response` slot and the
`_position_event` threading event (LayerCaptureDatacollect.py:46,51-52). -/
structure CorrState where
  waiting : Bool
  response : Option PosQ
  eventSet : Bool
deriving DecidableEq

/-- The arming step shared by `_get_current_position_sync`
(LayerCaptureDatacollect.py:260-262) and
`_send_gcode_and_wait_for_completion` (LayerCaptureDatacollect.py:391-393):
clear the event, drop any previous response and raise the waiting flag.
The source performs these three assignments unconditionally; there is no
check of the previous state and no error path. -/
def armPositionRequest (_st : CorrState) : CorrState :=
  ⟨true, none, false⟩

/-- `gcode_received` (LayerCaptureDatacollect.py:363-381): parse the line
against the position pattern; when it matches and the waiting flag is armed,
store the parsed position, clear the flag and set the event; always return
the line itself as the second component (the value handed back to the
host). -/
def gcodeReceived (st : CorrState) (line : List Char) : CorrState × List Char :=
  match parsePositionLine line with
  | some (gx, gy, gz, ge) =>
      if st.waiting then
        (⟨false, some ⟨ratOfNum gx, ratOfNum gy, ratOfNum gz, ratOfNum ge⟩, true⟩, line)
      else (st, line)
  | none => (st, line)

/-- A machine position as used by the movement sequence: the `x`, `y`, `z`
entries of `current_pos` (the `e` entry is never read there). -/
structure Pos where
  x : ℚ
  y : ℚ
  z : ℚ
deriving DecidableEq

/-- `CAM_X_OFFSET` (LayerCaptureDatacollect.py:24). -/
def camXOffset : ℚ := -35
/-- `CAM_Y_OFFSET` (LayerCaptureDatacollect.py:25). -/
def camYOffset : ℚ := 18
/-- `CAM_Z_OFFSET` (LayerCaptureDatacollect.py:26). -/
def camZOffset : ℚ := 60

/-- The instruction shapes issued by `_execute_movement_sequence`:
`M83`, `G1 E<amt> F1800`, `M400`, `G90`, and `G0 X.. Y.. Z.. F<feed>`. -/
inductive GCmd where
  | m83 : GCmd
  | g1e (amount : ℚ) : GCmd
  | m400 : GCmd
  | g90 : GCmd
  | g0 (x y z : ℚ) (feed : ℕ) : GCmd
deriving DecidableEq

/-- The four tags `_execute_movement_sequence` attaches to its command
batches (LayerCaptureDatacollect.py:287,303,321,332). -/
inductive CTag where
  | retract : CTag
  | move : CTag
  | ret : CTag
  | unretract : CTag
deriving DecidableEq

/-- One `self._printer.commands([...], tags=...)` call. -/
structure Batch where
  tag : CTag
  cmds : List GCmd
deriving DecidableEq

/-- `_execute_movement_sequence` (LayerCaptureDatacollect.py:278-338),
parameterized by the realized values of the three `random.randint(-10, 10)`
draws and by whether the camera capture and the artifact save succeed (both
raise into the surrounding `try` on failure).  Returns the batches issued,
the boolean result of the method, and whether `_save_image_and_metadata`
ran to completion.  An exception raised by `capture_image` or by the save
jumps to the `except` handler, which returns `False`: the return move and
the un-retract are then never issued. -/
def executeMovementSequence (pos : Pos) (rx ry rz : ℤ)
    (captureOk saveOk : Bool) : List Batch × Bool × Bool :=
  let tx := pos.x + camXOffset + (rx : ℚ)
  let ty := pos.y + camYOffset + (ry : ℚ)
  let tz := pos.z + camZOffset + (rz : ℚ)
  let retractB : Batch := ⟨CTag.retract, [GCmd.m83, GCmd.g1e (-7/10), GCmd.m400]⟩
  let moveB : Batch := ⟨CTag.move, [GCmd.g90, GCmd.g0 tx ty tz 5000, GCmd.m400]⟩
  if captureOk && saveOk then
    ([retractB, moveB,
      ⟨CTag.ret, [GCmd.g0 pos.x pos.y pos.z 5000, GCmd.m400]⟩,
      ⟨CTag.unretract, [GCmd.m83, GCmd.g1e (7/10), GCmd.m400]⟩],
     true, true)
  else
    ([retractB, moveB], false, false)

/-- First `G0` of a command list, as a coordinate triple. -/
def firstG0 : List GCmd → Option (ℚ × ℚ × ℚ)
  | [] => none
  | GCmd.g0 x y z _ :: _ => some (x, y, z)
  | _ :: rest => firstG0 rest

/-- Target of the `G0` inside the batch bearing the given tag. -/
def g0TargetOfTag (t : CTag) (bs : List Batch) : Option (ℚ × ℚ × ℚ) :=
  (bs.find? (fun b => b.tag == t)).bind (fun b => firstG0 b.cmds)

/-- The absolute target of the outbound move batch. -/
def outboundMoveTarget (bs : List Batch) : Option (ℚ × ℚ × ℚ) :=
  g0TargetOfTag CTag.move bs

/-- The absolute target of the return move batch. -/
def returnMoveTarget (bs : List Batch) : Option (ℚ × ℚ × ℚ) :=
  g0TargetOfTag CTag.ret bs

/-- Externally visible steps taken by `on_gcode_queuing`: the
`set_job_on_hold(True)` attempt, the spawn of the capture thread with the
extracted parameters and the original command, and `set_job_on_hold(False)`. -/
inductive Action where
  | acquire : Action
  | startThread (layerZ layerNum cmd : List Char) : Action
  | release : Action
deriving DecidableEq

/-- What `on_gcode_queuing` returns to the host: `None` lets the command
pass through unchanged; `(None,)` suppresses it. -/
inductive QueuingResult where
  | passThrough : QueuingResult
  | suppress : QueuingResult
deriving DecidableEq

/-- `on_gcode_queuing` (LayerCaptureDatacollect.py:187-227).  Inputs:
`captureActive` records whether a capture sequence is currently in flight in
the surrounding system — the source method never reads any such state, so
the model ignores it; `isPrinting` is `self._printer.is_printing()`;
`acquireOk` is the value `set_job_on_hold(True)` returns when called; `cmd`
is the queued command text.  Output: the ordered action trace of the call
and its return value. -/
def onGcodeQueuing (_captureActive isPrinting acquireOk : Bool)
    (cmd : List Char) : List Action × QueuingResult :=
  if isPrinting = false then ([], QueuingResult.passThrough)
  else
    let line := normalizeLine cmd
    if containsSub m240 line then
      match parseM240Params line with
      | none => ([], QueuingResult.passThrough)
      | some (z, zn) =>
          if acquireOk then
            ([Action.acquire, Action.startThread z zn cmd, Action.release],
             QueuingResult.suppress)
          else ([Action.acquire], QueuingResult.passThrough)
    else ([], QueuingResult.passThrough)

/-- Outcome of `_schedule_capture` (__init__.py:587-595). -/
inductive ScheduleResult where
  | skippedWithWarning : ScheduleResult
  | started : ScheduleResult
deriving DecidableEq

/-- `_schedule_capture` (__init__.py:587-595): when the capture thread is
alive a warning is logged and nothing is started; otherwise a new capture
thread starts. -/
def scheduleCapture (threadAlive : Bool) : ScheduleResult :=
  if threadAlive then ScheduleResult.skippedWithWarning else ScheduleResult.started

/-! Shared concrete inputs used across the claims. -/

/-- The trigger line of the specification scenario. -/
def trigCmd : List Char := "M240 Z12.40 ZN37".toList

/-- A full position report carrying all four fields. -/
def posLine4 : List Char := "ok X:100.0 Y:50.0 Z:12.40 E:5.0 Count: A:0 B:0".toList

/-- A position report carrying only three of the four fields. -/
def posLine3 : List Char := "ok X:100.0 Y:50.0 Z:12.40 Count: A:0".toList

/-- The origin position of the specification scenario. -/
def posEx : Pos := ⟨100, 50, 62/5⟩

lemma ratOfNum_12_40 : ratOfNum ['1','2','.','4','0'] = 62/5 := by
  simp [ratOfNum, ratOfUnsigned, natOfDigits, List.takeWhile, List.dropWhile, isDigitCh]
  norm_num

lemma ratOfNum_37 : ratOfNum ['3','7'] = 37 := by
  simp [ratOfNum, ratOfUnsigned, natOfDigits, List.takeWhile, List.dropWhile, isDigitCh]

lemma ratOfNum_100_0 : ratOfNum ['1','0','0','.','0'] = 100 := by
  simp [ratOfNum, ratOfUnsigned, natOfDigits, List.takeWhile, List.dropWhile, isDigitCh]

lemma ratOfNum_50_0 : ratOfNum ['5','0','.','0'] = 50 := by
  simp [ratOfNum, ratOfUnsigned, natOfDigits, List.takeWhile, List.dropWhile, isDigitCh]

lemma ratOfNum_5_0 : ratOfNum ['5','.','0'] = 5 := by
  simp [ratOfNum, ratOfUnsigned, natOfDigits, List.takeWhile, List.dropWhile, isDigitCh]

/-- C10: for every inbound status line, `gcode_received` returns the input
line unchanged, whether or not the line matches the position pattern and
whether or not a correlation waiter is armed, so delivering a line to the
position correlator never alters the inbound status stream. -/
theorem c10_received_line_unchanged (st : CorrState) (line : List Char) :
    (gcodeReceived st line).2 = line := by
  unfold gcodeReceived
  rcases parsePositionLine line with _ | ⟨gx, gy, gz, ge⟩
  · rfl
  · by_cases h : st.waiting <;> simp [h]

/-- C9 counterexample: starting from a state in which a correlation request
is outstanding (waiting flag armed, a response stored, event set), issuing a
second request does not fail: the arming step of
`_get_current_position_sync` and `_send_gcode_and_wait_for_completion`
returns a normal re-armed state, silently discarding the stored response.
No ConcurrentCorrelationError exists anywhere in the code. -/
theorem c9_counterexample :
    armPositionRequest ⟨true, some ⟨1, 2, 3, 4⟩, true⟩ = ⟨true, none, false⟩ := rfl

/-- C9 amended: a second position-correlation request issued while the first
is outstanding does not fail fast; the arming step ignores the previous
single-slot state entirely and unconditionally clears the event, drops the
stored response and re-arms the waiting flag. -/
theorem c9_second_request_overwrites (st : CorrState) :
    armPositionRequest st = ⟨true, none, false⟩ := rfl

/-- C5 counterexample: a status line carrying only three of the four
X/Y/Z/E fields is rejected by the position pattern, and `gcode_received`
leaves an armed waiting state untouched: the parser does not succeed on
partial reports. -/
theorem c5_counterexample :
    parsePositionLine posLine3 = none ∧
    gcodeReceived ⟨true, none, false⟩ posLine3 = (⟨true, none, false⟩, posLine3) := by
  exact ⟨by decide, by decide⟩

/-- C5 amended: the position pattern requires all four X/Y/Z/E fields plus
the `Count: A:` suffix.  A full report is parsed and stored for the armed
waiter; a report with fewer fields does not match, nothing is reported and
the waiting flag stays armed. -/
theorem c5_all_four_fields_required :
    parsePositionLine posLine4 =
      some ("100.0".toList, "50.0".toList, "12.40".toList, "5.0".toList) ∧
    parsePositionLine posLine3 = none ∧
    (gcodeReceived ⟨true, none, false⟩ posLine4).1 =
      ⟨false, some ⟨100, 50, 62/5, 5⟩, true⟩ ∧
    (gcodeReceived ⟨true, none, false⟩ posLine3).1 = ⟨true, none, false⟩ := by
  refine ⟨by decide, by decide, ?_, by decide⟩
  unfold gcodeReceived
  rw [show parsePositionLine posLine4 =
        some ("100.0".toList, "50.0".toList, "12.40".toList, "5.0".toList) from by decide]
  simp [ratOfNum_100_0, ratOfNum_50_0, ratOfNum_12_40, ratOfNum_5_0]

/-- C4 counterexample: the M240 interception path attempts a hold-acquire
for a trigger even while a capture sequence is already active.  The model
makes the surrounding sequence state an explicit input, which
`on_gcode_queuing` provably ignores: with an active sequence the handler
still acquires and spawns a second capture thread, identically to the idle
case. -/
theorem c4_counterexample :
    Action.acquire ∈ (onGcodeQueuing true true true trigCmd).1 ∧
    onGcodeQueuing true true true trigCmd = onGcodeQueuing false true true trigCmd :=
  ⟨by decide, rfl⟩

/-- C4 amended: only the layer-interval scheduling path guards against an
active sequence: `_schedule_capture` discards a trigger while its capture
thread is alive (warning, nothing started) and starts one otherwise.  The
M240 interception path has no such guard: the behavior of
`on_gcode_queuing` is independent of whether a sequence is active, so a
second trigger during an active sequence still attempts a hold-acquire and
starts a second capture thread. -/
theorem c4_guard_only_in_scheduler :
    scheduleCapture true = ScheduleResult.skippedWithWarning ∧
    scheduleCapture false = ScheduleResult.started ∧
    (∀ (a b isPrinting acquireOk : Bool) (cmd : List Char),
      onGcodeQueuing a isPrinting acquireOk cmd = onGcodeQueuing b isPrinting acquireOk cmd) :=
  ⟨rfl, rfl, fun _ _ _ _ _ => rfl⟩

/-- C8: an outgoing instruction containing the M240 marker whose height or
layer-index parameter does not parse is dropped as a trigger without any
exception: the handler performs no action at all (no hold-acquire, no
capture thread) and the instruction passes through to the device. -/
theorem c8_malformed_trigger_passes_through (active acq : Bool) (cmd : List Char)
    (hM : containsSub m240 (normalizeLine cmd) = true)
    (hP : parseM240Params (normalizeLine cmd) = none) :
    onGcodeQueuing active true acq cmd = ([], QueuingResult.passThrough) := by
  unfold onGcodeQueuing
  simp [hM, hP]

/-- C8 witness: the bare line `M240` contains the marker, has no parsable
parameters, and is passed through with no action taken. -/
theorem c8_witness :
    containsSub m240 (normalizeLine "M240".toList) = true ∧
    parseM240Params (normalizeLine "M240".toList) = none ∧
    onGcodeQueuing true true true "M240".toList = ([], QueuingResult.passThrough) :=
  ⟨by decide, by decide,
    c8_malformed_trigger_passes_through true true "M240".toList (by decide) (by decide)⟩

/-- C2 counterexample: for the scenario trigger, the queuing handler itself
releases the job hold as its final action, immediately after spawning the
capture thread and before any sequence instruction exists — the code even
sleeps inside the thread so that the release is processed first.  The
un-retract is only ever issued by the movement sequence, whose batches
(retract, outbound move, return, un-retract) are produced separately by the
thread.  Hence the hold is not held through the sequence and its release is
not gated on the un-retract confirmation. -/
theorem c2_counterexample :
    (onGcodeQueuing true true true trigCmd).1 =
      [Action.acquire, Action.startThread "12.40".toList "37".toList trigCmd,
       Action.release] ∧
    (executeMovementSequence posEx 5 4 1 true true).1.map Batch.tag =
      [CTag.retract, CTag.move, CTag.ret, CTag.unretract] :=
  ⟨by decide, by decide⟩

/-- C2 amended: for every trigger the handler accepts while printing, the
hold acquired at trigger detection is released by the handler itself,
immediately after the capture thread is spawned: the handler's action trace
is exactly acquire, spawn, release, and the retract/move/capture/return/
un-retract sequence then runs without the hold. -/
theorem c2_hold_released_immediately (active : Bool) (cmd z zn : List Char)
    (hM : containsSub m240 (normalizeLine cmd) = true)
    (hP : parseM240Params (normalizeLine cmd) = some (z, zn)) :
    onGcodeQueuing active true true cmd =
      ([Action.acquire, Action.startThread z zn cmd, Action.release],
       QueuingResult.suppress) := by
  unfold onGcodeQueuing
  simp [hM, hP]

/-- C2 witness: the amended behavior at the scenario trigger line. -/
theorem c2_witness :
    onGcodeQueuing true true true trigCmd =
      ([Action.acquire, Action.startThread "12.40".toList "37".toList trigCmd,
        Action.release], QueuingResult.suppress) :=
  c2_hold_released_immediately true trigCmd "12.40".toList "37".toList
    (by decide) (by decide)

/-- C3 counterexample: when the camera capture raises, the movement
sequence at the scenario origin performs no save (as the claim says) but
also never issues the return move: the batches end at the outbound move,
there is no return-tagged batch, and the method reports failure. -/
theorem c3_counterexample :
    (executeMovementSequence posEx 0 0 0 false true).2.2 = false ∧
    returnMoveTarget (executeMovementSequence posEx 0 0 0 false true).1 = none ∧
    (executeMovementSequence posEx 0 0 0 false true).1.map Batch.tag =
      [CTag.retract, CTag.move] :=
  ⟨rfl, rfl, rfl⟩

/-- C3 amended: when the capture raises, no artifact save occurs, but the
exception jumps straight to the `except` handler: the sequence terminates
with failure right there, issuing neither the return move nor the
un-retract — only the retract and outbound-move batches were sent. -/
theorem c3_capture_error_skips_return (pos : Pos) (rx ry rz : ℤ) (saveOk : Bool) :
    (executeMovementSequence pos rx ry rz false saveOk).2.2 = false ∧
    (executeMovementSequence pos rx ry rz false saveOk).2.1 = false ∧
    returnMoveTarget (executeMovementSequence pos rx ry rz false saveOk).1 = none ∧
    (executeMovementSequence pos rx ry rz false saveOk).1.map Batch.tag =
      [CTag.retract, CTag.move] :=
  ⟨rfl, rfl, rfl, rfl⟩

/-- C1: every sequence that reaches the return move requests as its return
target exactly the origin position recorded before the outbound move,
whatever the three randomized draws were; consequently the return
displacement is the additive inverse of the realized outbound
displacement. -/
theorem c1_return_move_targets_origin (pos : Pos) (rx ry rz : ℤ) :
    returnMoveTarget (executeMovementSequence pos rx ry rz true true).1 =
      some (pos.x, pos.y, pos.z) ∧
    (∀ tx ty tz qx qy qz,
      outboundMoveTarget (executeMovementSequence pos rx ry rz true true).1 =
        some (tx, ty, tz) →
      returnMoveTarget (executeMovementSequence pos rx ry rz true true).1 =
        some (qx, qy, qz) →
      qx - tx = -(tx - pos.x) ∧ qy - ty = -(ty - pos.y) ∧ qz - tz = -(tz - pos.z)) := by
  constructor
  · rfl
  · intro tx ty tz qx qy qz hOut hRet
    have hOut' : outboundMoveTarget (executeMovementSequence pos rx ry rz true true).1 =
        some (pos.x + camXOffset + (rx : ℚ), pos.y + camYOffset + (ry : ℚ),
          pos.z + camZOffset + (rz : ℚ)) := rfl
    have hRet' : returnMoveTarget (executeMovementSequence pos rx ry rz true true).1 =
        some (pos.x, pos.y, pos.z) := rfl
    have hOutEq := hOut'.symm.trans hOut
    have hRetEq := hRet'.symm.trans hRet
    simp only [Option.some.injEq, Prod.mk.injEq] at hOutEq hRetEq
    obtain ⟨hx, hy, hz⟩ := hOutEq
    obtain ⟨gx, gy, gz⟩ := hRetEq
    subst hx hy hz gx gy gz
    refine ⟨by ring, by ring, by ring⟩

/-- C1 witness: at the scenario origin with draws 5, 4, 1 the return move
targets exactly the origin, and on the realized targets the return
displacement inverts the outbound one. -/
theorem c1_witness :
    returnMoveTarget (executeMovementSequence posEx 5 4 1 true true).1 =
      some (100, 50, 62/5) ∧
    ((100 : ℚ) - 70 = -(70 - 100) ∧ (50 : ℚ) - 72 = -(72 - 50) ∧
      (62/5 : ℚ) - 367/5 = -(367/5 - 62/5)) := by
  have h := c1_return_move_targets_origin posEx 5 4 1
  constructor
  · exact h.1
  · refine h.2 70 72 (367/5) 100 50 (62/5) ?_ ?_
    · have : outboundMoveTarget (executeMovementSequence posEx 5 4 1 true true).1 =
          some (posEx.x + camXOffset + ((5 : ℤ) : ℚ), posEx.y + camYOffset + ((4 : ℤ) : ℚ),
            posEx.z + camZOffset + ((1 : ℤ) : ℚ)) := rfl
      rw [this]
      norm_num [posEx, camXOffset, camYOffset, camZOffset]
    · exact h.1

/-- C7: the outbound absolute target is, per axis, the origin coordinate
plus the fixed camera offset plus the realized random draw; when each draw
lies in the symmetric window from -10 to 10 the realized displacement on
each axis lies within the fixed camera offset plus or minus 10 units. -/
theorem c7_outbound_target_bounds (pos : Pos) (rx ry rz : ℤ) (ok1 ok2 : Bool)
    (h1 : -10 ≤ rx) (h2 : rx ≤ 10) (h3 : -10 ≤ ry) (h4 : ry ≤ 10)
    (h5 : -10 ≤ rz) (h6 : rz ≤ 10) :
    outboundMoveTarget (executeMovementSequence pos rx ry rz ok1 ok2).1 =
      some (pos.x + camXOffset + (rx : ℚ), pos.y + camYOffset + (ry : ℚ),
        pos.z + camZOffset + (rz : ℚ)) ∧
    camXOffset - 10 ≤ pos.x + camXOffset + (rx : ℚ) - pos.x ∧
    pos.x + camXOffset + (rx : ℚ) - pos.x ≤ camXOffset + 10 ∧
    camYOffset - 10 ≤ pos.y + camYOffset + (ry : ℚ) - pos.y ∧
    pos.y + camYOffset + (ry : ℚ) - pos.y ≤ camYOffset + 10 ∧
    camZOffset - 10 ≤ pos.z + camZOffset + (rz : ℚ) - pos.z ∧
    pos.z + camZOffset + (rz : ℚ) - pos.z ≤ camZOffset + 10 := by
  have hx1 : (-10 : ℚ) ≤ (rx : ℚ) := by exact_mod_cast h1
  have hx2 : (rx : ℚ) ≤ 10 := by exact_mod_cast h2
  have hy1 : (-10 : ℚ) ≤ (ry : ℚ) := by exact_mod_cast h3
  have hy2 : (ry : ℚ) ≤ 10 := by exact_mod_cast h4
  have hz1 : (-10 : ℚ) ≤ (rz : ℚ) := by exact_mod_cast h5
  have hz2 : (rz : ℚ) ≤ 10 := by exact_mod_cast h6
  refine ⟨?_, by linarith, by linarith, by linarith, by linarith, by linarith, by linarith⟩
  cases ok1 <;> cases ok2 <;> rfl

/-- C7 witness: scenario origin, draws 5, 4, 1 (inside the window), giving
realized offsets -30, 22, 61 and outbound target 70, 72, 73.40. -/
theorem c7_witness :
    outboundMoveTarget (executeMovementSequence posEx 5 4 1 true true).1 =
      some (70, 72, 367/5) ∧
    (70 : ℚ) - 100 = camXOffset + 5 ∧ (72 : ℚ) - 50 = camYOffset + 4 ∧
    (367/5 : ℚ) - 62/5 = camZOffset + 1 := by
  have h := (c7_outbound_target_bounds posEx 5 4 1 true true (by decide) (by decide)
    (by decide) (by decide) (by decide) (by decide)).1
  refine ⟨?_, ?_, ?_, ?_⟩
  · rw [h]
    norm_num [posEx, camXOffset, camYOffset, camZOffset]
  · norm_num [camXOffset]
  · norm_num [camYOffset]
  · norm_num [camZOffset]

/-! C6 development: trigger lines with the two tagged fields in either
order and arbitrary runs of extra whitespace. -/

/-- The height text `12.40` of the scenario trigger. -/
def heightTxt : List Char := ['1', '2', '.', '4', '0']

/-- The layer-index text `37` of the scenario trigger. -/
def layerTxt : List Char := ['3', '7']

/-- A run of `n` spaces. -/
def sp (n : ℕ) : List Char := List.replicate n ' '

/-- The height field: tag `Z`, `b` spaces, then the number. -/
def zField (b : ℕ) : List Char := 'Z' :: (sp b ++ heightTxt)

/-- The layer-index field: tag `ZN`, `b` spaces, then the number. -/
def znField (b : ℕ) : List Char := 'Z' :: 'N' :: (sp b ++ layerTxt)

/-- The family of trigger lines of the claim: marker, then the two tagged
fields in either order, with arbitrary whitespace runs after the marker,
inside each field between tag and number, and between the fields. -/
def trigLine (zFirst : Bool) (a b c d : ℕ) : List Char :=
  m240 ++ sp a ++
    (if zFirst then zField b ++ sp c ++ znField d
     else znField b ++ sp c ++ zField d)

lemma sp_succ (n : ℕ) : sp (n + 1) = ' ' :: sp n := by
  simp [sp, List.replicate_succ]

lemma searchTagNum_cons_none {tag : List Char} {c : Char} {cs : List Char}
    (h : matchTagNum tag (c :: cs) = none) :
    searchTagNum tag (c :: cs) = searchTagNum tag cs := by
  have e : searchTagNum tag (c :: cs) =
      match matchTagNum tag (c :: cs) with
      | some r => some r
      | none => searchTagNum tag cs := rfl
  rw [e, h]

lemma searchTagNum_cons_some {tag : List Char} {c : Char} {cs r : List Char}
    (h : matchTagNum tag (c :: cs) = some r) :
    searchTagNum tag (c :: cs) = some r := by
  unfold searchTagNum
  rw [h]

lemma matchTagNum_head_ne {t0 : Char} {ts : List Char} {c : Char} {cs : List Char}
    (h : c ≠ t0) : matchTagNum (t0 :: ts) (c :: cs) = none := by
  simp [matchTagNum, List.isPrefixOf, Ne.symm h]

lemma matchTagNum_ZN_second_ne {x : Char} {xs : List Char} (h : x ≠ 'N') :
    matchTagNum ['Z', 'N'] ('Z' :: x :: xs) = none := by
  simp [matchTagNum, List.isPrefixOf, Ne.symm h]

lemma search_skip {ts : List Char} (pre rest : List Char)
    (h : ∀ c ∈ pre, c ≠ 'Z') :
    searchTagNum ('Z' :: ts) (pre ++ rest) = searchTagNum ('Z' :: ts) rest := by
  induction pre with
  | nil => rfl
  | cons c p ih =>
    rw [List.cons_append,
      searchTagNum_cons_none (matchTagNum_head_ne (h c (List.mem_cons_self c p)))]
    exact ih (fun x hx => h x (List.mem_cons_of_mem c hx))

lemma sp_no_Z (n : ℕ) : ∀ c ∈ sp n, c ≠ 'Z' := by
  intro c hc
  rw [sp, List.mem_replicate] at hc
  rw [hc.2]
  decide

lemma m240_no_Z : ∀ c ∈ m240, c ≠ 'Z' := by decide

lemma height_no_Z : ∀ c ∈ heightTxt, c ≠ 'Z' := by decide

lemma layer_no_Z : ∀ c ∈ layerTxt, c ≠ 'Z' := by decide

lemma dropWhile_ws_sp (n : ℕ) (l : List Char) :
    (sp n ++ l).dropWhile isWs = l.dropWhile isWs := by
  induction n with
  | zero => rfl
  | succ k ih =>
    rw [sp_succ, List.cons_append]
    simpa using ih

lemma matchTagNum_Z (b : ℕ) (l : List Char) :
    matchTagNum ['Z'] ('Z' :: (sp b ++ l)) = matchNum (l.dropWhile isWs) := by
  simp [matchTagNum, List.isPrefixOf, dropWhile_ws_sp]

lemma matchTagNum_ZN (d : ℕ) (l : List Char) :
    matchTagNum ['Z', 'N'] ('Z' :: 'N' :: (sp d ++ l)) = matchNum (l.dropWhile isWs) := by
  simp [matchTagNum, List.isPrefixOf, dropWhile_ws_sp]

lemma takeWhile_digit_sp_Z (c : ℕ) (l : List Char) :
    (sp c ++ ('Z' :: l)).takeWhile isDigitCh = [] := by
  cases c with
  | zero => simp +decide [sp, List.takeWhile, isDigitCh]
  | succ k => rw [sp_succ]; simp +decide [List.takeWhile, isDigitCh]

lemma matchNum_height (r : List Char) (hr : r.takeWhile isDigitCh = []) :
    matchNum (heightTxt ++ r) = some heightTxt := by
  simp +decide [heightTxt, matchNum, numAfterSign, List.takeWhile, List.dropWhile, isDigitCh, hr]

lemma matchNum_layer_sp_Z (c : ℕ) (l : List Char) :
    matchNum (layerTxt ++ (sp c ++ ('Z' :: l))) = some layerTxt := by
  cases c with
  | zero =>
    simp +decide [sp, layerTxt, matchNum, numAfterSign, List.takeWhile, List.dropWhile, isDigitCh]
  | succ k =>
    rw [sp_succ]
    simp +decide [layerTxt, matchNum, numAfterSign, List.takeWhile, List.dropWhile, isDigitCh]

lemma matchNum_N (l : List Char) : matchNum ('N' :: l) = none := by
  simp +decide [matchNum, numAfterSign, List.takeWhile, List.dropWhile, isDigitCh]

lemma dropWhile_ws_height (r : List Char) :
    (heightTxt ++ r).dropWhile isWs = heightTxt ++ r := by
  simp +decide [heightTxt, List.dropWhile, isWs]

lemma dropWhile_ws_layer (r : List Char) :
    (layerTxt ++ r).dropWhile isWs = layerTxt ++ r := by
  simp +decide [layerTxt, List.dropWhile, isWs]

lemma matchTagNum_Z_then_N (l : List Char) :
    matchTagNum ['Z'] ('Z' :: 'N' :: l) = none := by
  have h := matchTagNum_Z 0 ('N' :: l)
  rw [show ('N' :: l).dropWhile isWs = 'N' :: l from by simp +decide [List.dropWhile, isWs],
    matchNum_N] at h
  exact h

lemma zField_shape (b : ℕ) (y : List Char) :
    zField b ++ y = 'Z' :: (sp b ++ (heightTxt ++ y)) := by
  simp [zField, List.append_assoc]

lemma znField_shape (b : ℕ) (y : List Char) :
    znField b ++ y = 'Z' :: 'N' :: (sp b ++ (layerTxt ++ y)) := by
  simp [znField, List.append_assoc]

lemma searchZ_line1 (a b c d : ℕ) :
    searchTagNum ['Z'] (trigLine true a b c d) = some heightTxt := by
  show searchTagNum ['Z'] (m240 ++ sp a ++ (zField b ++ sp c ++ znField d)) = _
  rw [List.append_assoc, search_skip m240 _ m240_no_Z, search_skip (sp a) _ (sp_no_Z a),
    List.append_assoc, zField_shape]
  refine searchTagNum_cons_some ?_
  rw [matchTagNum_Z b, dropWhile_ws_height]
  exact matchNum_height _ (takeWhile_digit_sp_Z c _)

lemma searchZN_line1 (a b c d : ℕ) :
    searchTagNum ['Z', 'N'] (trigLine true a b c d) = some layerTxt := by
  show searchTagNum ['Z', 'N'] (m240 ++ sp a ++ (zField b ++ sp c ++ znField d)) = _
  rw [List.append_assoc, search_skip m240 _ m240_no_Z, search_skip (sp a) _ (sp_no_Z a),
    List.append_assoc, zField_shape]
  have hstep : searchTagNum ['Z', 'N']
      ('Z' :: (sp b ++ (heightTxt ++ (sp c ++ znField d)))) =
      searchTagNum ['Z', 'N'] (sp b ++ (heightTxt ++ (sp c ++ znField d))) := by
    cases b with
    | zero => exact searchTagNum_cons_none (matchTagNum_ZN_second_ne (by decide))
    | succ k =>
      rw [sp_succ, List.cons_append]
      exact searchTagNum_cons_none (matchTagNum_ZN_second_ne (by decide))
  rw [hstep, search_skip (sp b) _ (sp_no_Z b), search_skip heightTxt _ height_no_Z,
    search_skip (sp c) _ (sp_no_Z c)]
  show searchTagNum ['Z', 'N'] ('Z' :: 'N' :: (sp d ++ layerTxt)) = _
  refine searchTagNum_cons_some ?_
  rw [matchTagNum_ZN d]
  decide

lemma searchZ_line2 (a b c d : ℕ) :
    searchTagNum ['Z'] (trigLine false a b c d) = some heightTxt := by
  show searchTagNum ['Z'] (m240 ++ sp a ++ (znField b ++ sp c ++ zField d)) = _
  rw [List.append_assoc, search_skip m240 _ m240_no_Z, search_skip (sp a) _ (sp_no_Z a),
    List.append_assoc, znField_shape,
    searchTagNum_cons_none (matchTagNum_Z_then_N _),
    searchTagNum_cons_none (matchTagNum_head_ne (by decide)),
    search_skip (sp b) _ (sp_no_Z b), search_skip layerTxt _ layer_no_Z,
    search_skip (sp c) _ (sp_no_Z c)]
  show searchTagNum ['Z'] ('Z' :: (sp d ++ heightTxt)) = _
  refine searchTagNum_cons_some ?_
  rw [matchTagNum_Z d]
  rw [show heightTxt.dropWhile isWs = heightTxt from by decide]
  decide

lemma searchZN_line2 (a b c d : ℕ) :
    searchTagNum ['Z', 'N'] (trigLine false a b c d) = some layerTxt := by
  show searchTagNum ['Z', 'N'] (m240 ++ sp a ++ (znField b ++ sp c ++ zField d)) = _
  rw [List.append_assoc, search_skip m240 _ m240_no_Z, search_skip (sp a) _ (sp_no_Z a),
    List.append_assoc, znField_shape]
  refine searchTagNum_cons_some ?_
  rw [matchTagNum_ZN b, dropWhile_ws_layer]
  exact matchNum_layer_sp_Z c _

/-- C6: for every trigger line built from the marker and the two tagged
fields, with the fields in either order and arbitrary extra whitespace after
the marker, between the fields, and between each tag and its number, the
detector extracts the same pair: the height text `12.40` and the
layer-index text `37`; in particular the line `M240 Z12.40 ZN37` (a member
of the family) yields height 12.40 and layer index 37 under the decimal
reading. -/
theorem c6_trigger_extraction_invariant :
    (∀ (zFirst : Bool) (a b c d : ℕ),
      parseM240Params (trigLine zFirst a b c d) = some (heightTxt, layerTxt)) ∧
    parseM240Params (normalizeLine trigCmd) = some (heightTxt, layerTxt) ∧
    trigLine true 1 0 1 0 = normalizeLine trigCmd ∧
    ratOfNum heightTxt = 62/5 ∧ ratOfNum layerTxt = 37 := by
  refine ⟨?_, by decide, by decide, ratOfNum_12_40, ratOfNum_37⟩
  intro zFirst a b c d
  cases zFirst
  · unfold parseM240Params
    rw [searchZ_line2, searchZN_line2]
  · unfold parseM240Params
    rw [searchZ_line1, searchZN_line1]

end LayerCapture
